import Mathlib

/-!
Verification of the Windhager climate adapter
(`custom_components/windhager/climate.py`).

The adapter projects a flat register store (path → decimal string) into
climate readings and translates commands into register writes.  This file
shallowly embeds the two entity classes `WindhagerThermostatClimate`
(the "biased" variant) and `WindhagerThermostatClimateWithoutBias`:

* the register store is an association list `Store`;
* Python `float(...)` / `int(...)` on strings become `pyFloat` / `pyInt`
  over exact rationals / integers, returning `Except PyError _` so that
  `ValueError` / `TypeError` are explicit values;
* each `try: ... except (ValueError, TypeError): return None` block is
  embedded by matching on the body's `Except` result — the bodies only
  ever raise `ValueError` or `TypeError`, which the handler catches, so
  those properties are total `Option`-valued functions;
* `preset_mode`, whose body compares a possibly-`None` value with `0`
  and indexes a list with a possibly-`None` / out-of-range index
  *outside* any handler, keeps the `Except PyError _` type;
* a command (`async_set_preset_mode`, `async_set_temperature`, ...)
  is embedded as the ordered list of external effects it issues
  (register writes and coordinator refreshes), paired with the
  exception it raises, if any.  Effects issued before an exception is
  raised are kept, matching Python's evaluation order.

Floats are modelled as exact rationals: every register travels as a
decimal string, and the only arithmetic is subtraction of a parsed
value (exact in IEEE double as well for the identities proved here).
`pyFloatOfString?` accepts signed decimal literals with optional
fraction and exponent; `pyIntOfString?` accepts signed integer
literals.
-/

namespace Windhager

/-- A Python value as it can reach `float(...)` / `int(...)` here:
a string from the store, the integer default `0` of `dict.get(path, 0)`,
or `None` from a `dict.get(path)` miss. -/
inductive PyVal where
  | str (s : String)
  | int (n : Int)
  | pynone
deriving DecidableEq, Repr

/-- The Python exceptions this module can raise. -/
inductive PyError where
  | valueError
  | typeError
  | indexError
deriving DecidableEq, Repr

/-- `HVACAction.OFF` / `HVACAction.HEATING` from the host platform. -/
inductive HVACAction where
  | off
  | heating
deriving DecidableEq, Repr

/-- One external effect of a command: a register write through
`client.update(path, value)` or a `coordinator.async_request_refresh()`. -/
inductive Effect where
  | write (path value : String)
  | refresh
deriving DecidableEq, Repr

/-- The coordinator's `oids` dictionary: register path → string value. -/
abbrev Store := List (String × String)

/-- `dict.get(key)` (no default): the value, or `none` on a miss. -/
def storeGet? : Store → String → Option String
  | [], _ => Option.none
  | (k, v) :: rest, key => if k == key then some v else storeGet? rest key

/-- `dict.get(key, default)` with a string default. -/
def storeGetD (s : Store) (key dflt : String) : String :=
  (storeGet? s key).getD dflt

/-- Numeric value of a digit string (only used on all-digit lists). -/
def digitsVal (cs : List Char) : Nat :=
  cs.foldl (fun acc c => 10 * acc + (c.toNat - 48)) 0

/-- A non-empty all-digit list parses to its value; anything else fails. -/
def parseDigits (cs : List Char) : Option Nat :=
  if cs ≠ [] ∧ cs.all Char.isDigit then some (digitsVal cs) else Option.none

/-- Python `int(s)` on a string: an optional sign followed by digits. -/
def pyIntOfString? (s : String) : Option Int :=
  match s.data with
  | '+' :: cs => (parseDigits cs).map Int.ofNat
  | '-' :: cs => (parseDigits cs).map (fun n => -(n : Int))
  | cs => (parseDigits cs).map Int.ofNat

/-- Split a character list at the first '.', if any. -/
def splitAtDot : List Char → List Char × Option (List Char)
  | [] => ([], Option.none)
  | c :: cs =>
    if c = '.' then ([], some cs)
    else
      let r := splitAtDot cs
      (c :: r.1, r.2)

/-- Split a character list at the first 'e' or 'E', if any. -/
def splitAtExp : List Char → List Char × Option (List Char)
  | [] => ([], Option.none)
  | c :: cs =>
    if c = 'e' ∨ c = 'E' then ([], some cs)
    else
      let r := splitAtExp cs
      (c :: r.1, r.2)

/-- The mantissa of a float literal: digits, optionally split by one '.',
with at least one digit overall. -/
def parseMantissa (cs : List Char) : Option ℚ :=
  match splitAtDot cs with
  | (ip, Option.none) => (parseDigits ip).map (fun n => (n : ℚ))
  | (ip, some fp) =>
    if (ip ≠ [] ∨ fp ≠ []) ∧ ip.all Char.isDigit ∧ fp.all Char.isDigit then
      some ((digitsVal ip : ℚ) + (digitsVal fp : ℚ) / (10 : ℚ) ^ fp.length)
    else Option.none

/-- The exponent part of a float literal: an optionally signed digit string. -/
def parseExpChars : List Char → Option Int
  | '+' :: ds => (parseDigits ds).map Int.ofNat
  | '-' :: ds => (parseDigits ds).map (fun n => -(n : Int))
  | ds => (parseDigits ds).map Int.ofNat

/-- An unsigned float literal: mantissa with an optional exponent. -/
def parseUnsignedFloat (cs : List Char) : Option ℚ :=
  match splitAtExp cs with
  | (m, Option.none) => parseMantissa m
  | (m, some e) =>
    match parseMantissa m, parseExpChars e with
    | some q, some ex => some (q * (10 : ℚ) ^ ex)
    | _, _ => Option.none

/-- Python `float(s)` on a string, as an exact rational. -/
def pyFloatOfString? (s : String) : Option ℚ :=
  match s.data with
  | '+' :: cs => parseUnsignedFloat cs
  | '-' :: cs => (parseUnsignedFloat cs).map (fun q => -q)
  | cs => parseUnsignedFloat cs

/-- Python `float(x)`: parses a string (`ValueError` when malformed),
passes an int through, raises `TypeError` on `None`. -/
def pyFloat : PyVal → Except PyError ℚ
  | PyVal.str s =>
    match pyFloatOfString? s with
    | some q => Except.ok q
    | Option.none => Except.error PyError.valueError
  | PyVal.int n => Except.ok (n : ℚ)
  | PyVal.pynone => Except.error PyError.typeError

/-- Python `int(x)`: parses a string (`ValueError` when malformed),
passes an int through, raises `TypeError` on `None`. -/
def pyInt : PyVal → Except PyError Int
  | PyVal.str s =>
    match pyIntOfString? s with
    | some n => Except.ok n
    | Option.none => Except.error PyError.valueError
  | PyVal.int n => Except.ok n
  | PyVal.pynone => Except.error PyError.typeError

/-- Python list indexing `xs[i]`, with negative indices counting from the
end and `IndexError` out of range. -/
def pyListGet (xs : List String) (i : Int) : Except PyError String :=
  if 0 ≤ i then
    if i < (xs.length : Int) then Except.ok (xs.getD i.toNat "")
    else Except.error PyError.indexError
  else
    if -(xs.length : Int) ≤ i then Except.ok (xs.getD (i + xs.length).toNat "")
    else Except.error PyError.indexError

/-- Python `xs.index(x)`: the first index of `x`, `ValueError` when absent. -/
def listIndex : List String → String → Except PyError Nat
  | [], _ => Except.error PyError.valueError
  | y :: ys, x =>
    if y == x then Except.ok 0
    else
      match listIndex ys x with
      | Except.ok n => Except.ok (n + 1)
      | Except.error e => Except.error e

/-- `self._preset_modes`: identical in both entity classes. -/
def presetModes : List String := ["0", "1", "2", "3", "4", "5", "6", "7"]

/-- Biased `current_temperature`:
`float(get(p+"/0/0/1/0","0")) - float(get(p+"/0/3/58/0","0"))`, with
`ValueError` / `TypeError` caught to `None`.  The body raises only those
two exceptions, so the property is total. -/
def currentTemperature (store : Store) (pfx : String) : Option ℚ :=
  match pyFloat (PyVal.str (storeGetD store (pfx ++ "/0/0/1/0") "0")) with
  | Except.error _ => Option.none
  | Except.ok a =>
    match pyFloat (PyVal.str (storeGetD store (pfx ++ "/0/3/58/0") "0")) with
    | Except.error _ => Option.none
    | Except.ok b => some (a - b)

/-- Biased `target_temperature`:
`float(get(p+"/0/1/1/0","0")) - float(get(p+"/0/3/58/0","0"))`, with
`ValueError` / `TypeError` caught to `None`. -/
def targetTemperature (store : Store) (pfx : String) : Option ℚ :=
  match pyFloat (PyVal.str (storeGetD store (pfx ++ "/0/1/1/0") "0")) with
  | Except.error _ => Option.none
  | Except.ok a =>
    match pyFloat (PyVal.str (storeGetD store (pfx ++ "/0/3/58/0") "0")) with
    | Except.error _ => Option.none
    | Except.ok b => some (a - b)

/-- Unbiased `current_temperature`: `float(get(p+"/0/0/1/0","0"))` with
`ValueError` / `TypeError` caught to `None`. -/
def currentTemperatureNoBias (store : Store) (pfx : String) : Option ℚ :=
  match pyFloat (PyVal.str (storeGetD store (pfx ++ "/0/0/1/0") "0")) with
  | Except.error _ => Option.none
  | Except.ok a => some a

/-- The `try:` body of the unbiased `target_temperature`:
`float(get(p+"/0/1/1/0"))` — note the lookup passes **no** default, so a
miss hands `None` to `float`, which raises `TypeError`. -/
def targetTemperatureNoBiasBody (store : Store) (pfx : String) :
    Except PyError ℚ :=
  pyFloat
    (match storeGet? store (pfx ++ "/0/1/1/0") with
     | some s => PyVal.str s
     | Option.none => PyVal.pynone)

/-- Unbiased `target_temperature`: the body above with
`ValueError` / `TypeError` caught to `None`. -/
def targetTemperatureNoBias (store : Store) (pfx : String) : Option ℚ :=
  match targetTemperatureNoBiasBody store pfx with
  | Except.error _ => Option.none
  | Except.ok a => some a

/-- `raw_preset_mode`: `int(get(p+"/0/3/50/0", 0))` with
`ValueError` / `TypeError` caught to `None` (identical in both classes).
The default is the **int** `0`, so a miss parses to `0`. -/
def rawPresetMode (store : Store) (pfx : String) : Option Int :=
  match pyInt
      (match storeGet? store (pfx ++ "/0/3/50/0") with
       | some s => PyVal.str s
       | Option.none => PyVal.int 0) with
  | Except.error _ => Option.none
  | Except.ok n => some n

/-- `raw_custom_temp_remaining_time`: `int(get(p+"/0/2/10/0", 0))` with
`ValueError` / `TypeError` caught to `None` (identical in both classes). -/
def rawCustomTempRemainingTime (store : Store) (pfx : String) : Option Int :=
  match pyInt
      (match storeGet? store (pfx ++ "/0/2/10/0") with
       | some s => PyVal.str s
       | Option.none => PyVal.int 0) with
  | Except.error _ => Option.none
  | Except.ok n => some n

/-- `hvac_action` (identical in both classes): `OFF` when
`raw_preset_mode() == 0`, else `HEATING`.  Python's `None == 0` is
`False`, which the `Option Int` equality test mirrors. -/
def hvacAction (store : Store) (pfx : String) : HVACAction :=
  if rawPresetMode store pfx == some 0 then HVACAction.off
  else HVACAction.heating

/-- `preset_mode` (identical in both classes):
`self._preset_modes[7]` when `raw_custom_temp_remaining_time() > 0`, else
`self._preset_modes[self.raw_preset_mode()]`.  No handler surrounds this
body: `None > 0` and `list[None]` raise `TypeError`, and an out-of-range
index raises `IndexError`. -/
def presetMode (store : Store) (pfx : String) : Except PyError String :=
  match rawCustomTempRemainingTime store pfx with
  | Option.none => Except.error PyError.typeError
  | some r =>
    if 0 < r then pyListGet presetModes 7
    else
      match rawPresetMode store pfx with
      | Option.none => Except.error PyError.typeError
      | some m => pyListGet presetModes m

/-- `async_set_hvac_mode` (biased class): an empty method body — no
effect, no exception, for every argument. -/
def asyncSetHvacMode (_hvacMode : String) : List Effect × Option PyError :=
  ([], Option.none)

/-- `async_set_hvac_mode` of the without-bias class: likewise empty. -/
def asyncSetHvacModeNoBias (_hvacMode : String) :
    List Effect × Option PyError :=
  ([], Option.none)

/-- `async_set_preset_mode` (identical in both classes):
`id_mode = self._preset_modes.index(preset_mode)` (raises `ValueError`
on an unknown label, before any write); write `str(id_mode)` to the mode
register; if `raw_custom_temp_remaining_time() > 0` also write `"0"` to
the override register (a `None` from the raw getter makes that comparison
raise `TypeError` after the first write); then request a refresh. -/
def asyncSetPresetMode (store : Store) (pfx label : String) :
    List Effect × Option PyError :=
  match listIndex presetModes label with
  | Except.error e => ([], some e)
  | Except.ok idMode =>
    let w1 := Effect.write (pfx ++ "/0/3/50/0") (toString idMode)
    match rawCustomTempRemainingTime store pfx with
    | Option.none => ([w1], some PyError.typeError)
    | some r =>
      if 0 < r then
        ([w1, Effect.write (pfx ++ "/0/2/10/0") "0", Effect.refresh],
         Option.none)
      else ([w1, Effect.refresh], Option.none)

/-- `async_set_temperature` (biased class): write the stringified
temperature (`str(kwargs.get(ATTR_TEMPERATURE))`, passed here already
rendered) to the setpoint register, then `"400"` to the override
register, then request a refresh. -/
def asyncSetTemperature (pfx vstr : String) : List Effect :=
  [Effect.write (pfx ++ "/0/3/4/0") vstr,
   Effect.write (pfx ++ "/0/2/10/0") "400",
   Effect.refresh]

/-- `async_set_temperature` of the without-bias class: same body. -/
def asyncSetTemperatureNoBias (pfx vstr : String) : List Effect :=
  [Effect.write (pfx ++ "/0/3/4/0") vstr,
   Effect.write (pfx ++ "/0/2/10/0") "400",
   Effect.refresh]

/-- `set_current_temp_compensation` (defined on the biased class only):
write the stringified compensation to the bias register, then request a
refresh. -/
def setCurrentTempCompensation (pfx vstr : String) : List Effect :=
  [Effect.write (pfx ++ "/0/3/58/0") vstr, Effect.refresh]

/-- The command surface of one entity class, method by method.
`setCurrentTempCompensation?` is `Option`-valued because only the biased
class defines that method. -/
structure ClimateCommands where
  setHvacMode : String → List Effect × Option PyError
  setPresetMode : Store → String → String → List Effect × Option PyError
  setTemperature : String → String → List Effect
  setCurrentTempCompensation? : Option (String → String → List Effect)

/-- The commands `WindhagerThermostatClimate` defines. -/
def biasedCommands : ClimateCommands where
  setHvacMode := asyncSetHvacMode
  setPresetMode := asyncSetPresetMode
  setTemperature := asyncSetTemperature
  setCurrentTempCompensation? := some setCurrentTempCompensation

/-- The commands `WindhagerThermostatClimateWithoutBias` defines: no
`set_current_temp_compensation` method exists on that class. -/
def noBiasCommands : ClimateCommands where
  setHvacMode := asyncSetHvacModeNoBias
  setPresetMode := asyncSetPresetMode
  setTemperature := asyncSetTemperatureNoBias
  setCurrentTempCompensation? := Option.none

/-! ## Helper lemmas -/

/-- The register default string `"0"` parses to the rational `0`. -/
lemma pyFloat_zero : pyFloat (PyVal.str "0") = Except.ok 0 := by
  have h : pyFloat (PyVal.str "0") = Except.ok ((digitsVal ['0'] : ℕ) : ℚ) := rfl
  rw [h, show digitsVal ['0'] = 0 from rfl, Nat.cast_zero]

/-- `xs.index(x)` raises `ValueError` exactly when `x` is not an element. -/
lemma listIndex_not_mem (xs : List String) (x : String) (h : x ∉ xs) :
    listIndex xs x = Except.error PyError.valueError := by
  induction xs with
  | nil => rfl
  | cons y ys ih =>
    simp only [List.mem_cons, not_or] at h
    rw [listIndex,
      if_neg (by simp only [beq_iff_eq]; exact fun hyx => h.1 hyx.symm),
      ih h.2]

/-- A present setpoint register feeds its string straight to `float`. -/
lemma targetBody_of_present (store : Store) (pfx s : String)
    (hs : storeGet? store (pfx ++ "/0/1/1/0") = some s) :
    targetTemperatureNoBiasBody store pfx = pyFloat (PyVal.str s) := by
  unfold targetTemperatureNoBiasBody
  rw [hs]

/-- Every write `async_set_preset_mode` issues carries either the string
of the resolved label index or the override-cancelling `"0"`. -/
lemma setPresetMode_write_value (store : Store) (pfx label : String)
    (k : Nat) (hk : listIndex presetModes label = Except.ok k)
    (p v : String)
    (hmem : Effect.write p v ∈ (asyncSetPresetMode store pfx label).1) :
    v = toString k ∨ v = "0" := by
  simp only [asyncSetPresetMode, hk] at hmem
  cases hrem : rawCustomTempRemainingTime store pfx with
  | none =>
    simp only [hrem] at hmem
    simp at hmem
    exact Or.inl hmem.2
  | some r =>
    simp only [hrem] at hmem
    by_cases h0 : 0 < r
    · simp only [if_pos h0] at hmem
      simp at hmem
      rcases hmem with ⟨-, h⟩ | ⟨-, h⟩
      · exact Or.inl h
      · exact Or.inr h
    · simp only [if_neg h0] at hmem
      simp at hmem
      exact Or.inl hmem.2

/-- A write whose label resolves to an index whose string is not `"7"`
never carries the value `"7"`. -/
lemma setPresetMode_write_ne_seven (store : Store) (pfx label : String)
    (k : Nat) (hk : listIndex presetModes label = Except.ok k)
    (hk7 : toString k ≠ "7") (p v : String)
    (hmem : Effect.write p v ∈ (asyncSetPresetMode store pfx label).1) :
    v ≠ "7" := by
  rcases setPresetMode_write_value store pfx label k hk p v hmem
      with h1 | h1 <;> subst h1
  · exact hk7
  · decide

/-! ## The claims -/

/-- C1: the fail-soft contract does **not** hold for `preset_mode`.  On a
store whose override-remaining-minutes register holds the malformed
string `"abc"`, `raw_custom_temp_remaining_time()` catches the parse
error and returns `None`, and `preset_mode` then evaluates `None > 0`,
which raises an uncaught `TypeError` out of the derived property —
contradicting the claim that a malformed register only degrades the
affected reading to an absent value. -/
theorem preset_mode_crashes_on_malformed_override_register :
    presetMode [("/1/15/0/2/10/0", "abc")] "/1/15" =
      Except.error PyError.typeError := rfl

/-- C2, counterexample: the synthetic label `"7"` is itself a member of
the fixed 8-label set, and `async_set_preset_mode("7")` resolves it to
index 7 and writes the string `"7"` to the mode register
(prefix + "/0/3/50/0") — so the claim as stated is false. -/
theorem set_preset_seven_writes_seven_counterexample :
    "7" ∈ presetModes ∧
    Effect.write ("/1/15" ++ "/0/3/50/0") "7" ∈
      (asyncSetPresetMode [] "/1/15" "7").1 := by
  constructor
  · decide
  · decide

/-- C2, amended: for every label among the seven numbered mode labels
`"0"`..`"6"`, no register write issued by `async_set_preset_mode`
carries the value `"7"` — in particular the mode register is never
written with `"7"`.  (The original claim also allowed the eighth label
`"7"`, which the counterexample refutes.) -/
theorem set_preset_proper_labels_never_write_seven
    (store : Store) (pfx label : String)
    (h : label ∈ (["0", "1", "2", "3", "4", "5", "6"] : List String))
    (p v : String)
    (hmem : Effect.write p v ∈ (asyncSetPresetMode store pfx label).1) :
    v ≠ "7" := by
  fin_cases h
  · exact setPresetMode_write_ne_seven store pfx "0" 0 rfl (by decide) p v hmem
  · exact setPresetMode_write_ne_seven store pfx "1" 1 rfl (by decide) p v hmem
  · exact setPresetMode_write_ne_seven store pfx "2" 2 rfl (by decide) p v hmem
  · exact setPresetMode_write_ne_seven store pfx "3" 3 rfl (by decide) p v hmem
  · exact setPresetMode_write_ne_seven store pfx "4" 4 rfl (by decide) p v hmem
  · exact setPresetMode_write_ne_seven store pfx "5" 5 rfl (by decide) p v hmem
  · exact setPresetMode_write_ne_seven store pfx "6" 6 rfl (by decide) p v hmem

/-- C2, witness: the amended theorem applied to label `"3"` on the empty
store, whose single mode-register write carries `"3"`. -/
theorem set_preset_proper_labels_never_write_seven_witness :
    ("3" : String) ≠ "7" :=
  set_preset_proper_labels_never_write_seven [] "/1/15" "3" (by decide)
    "/1/15/0/3/50/0" "3" (by decide)

/-- C3: when the override-remaining-minutes register parses to `r ≤ 0`
and the mode register parses to `m` with `0 ≤ m ≤ 6`, `preset_mode`
returns the decimal string of `m`; and whenever the
override-remaining-minutes register parses to `r > 0`, `preset_mode`
returns `"7"` regardless of the mode register. -/
theorem preset_mode_label_of_mode_and_override (store : Store) (pfx : String) :
    (∀ m : Int, rawPresetMode store pfx = some m → 0 ≤ m → m ≤ 6 →
      ∀ r : Int, rawCustomTempRemainingTime store pfx = some r → r ≤ 0 →
        presetMode store pfx = Except.ok (toString m)) ∧
    (∀ r : Int, rawCustomTempRemainingTime store pfx = some r → 0 < r →
      presetMode store pfx = Except.ok "7") := by
  constructor
  · intro m hm hm0 hm6 r hr hr0
    simp only [presetMode, hr, hm]
    rw [if_neg (not_lt.mpr hr0)]
    interval_cases m <;> rfl
  · intro r hr hr0
    simp only [presetMode, hr]
    rw [if_pos hr0]
    rfl

/-- C3, witness: on a store with mode register `"3"` and override
register `"0"` the preset is `"3"`; with mode `"2"` but override `"5"`
it is `"7"`. -/
theorem preset_mode_label_of_mode_and_override_witness :
    presetMode [("/1/15/0/3/50/0", "3"), ("/1/15/0/2/10/0", "0")] "/1/15" =
      Except.ok "3" ∧
    presetMode [("/1/15/0/3/50/0", "2"), ("/1/15/0/2/10/0", "5")] "/1/15" =
      Except.ok "7" :=
  ⟨(preset_mode_label_of_mode_and_override
      [("/1/15/0/3/50/0", "3"), ("/1/15/0/2/10/0", "0")] "/1/15").1
      3 rfl (by decide) (by decide) 0 rfl (by decide),
   (preset_mode_label_of_mode_and_override
      [("/1/15/0/3/50/0", "2"), ("/1/15/0/2/10/0", "5")] "/1/15").2
      5 rfl (by decide)⟩

/-- C4, counterexample: on the empty store the bias register is absent,
yet the biased and unbiased `target_temperature` differ — the biased
variant looks the setpoint register up with default `"0"` and returns
`0.0`, while the unbiased variant passes no default, `float(None)`
raises a (caught) `TypeError`, and the reading is absent. -/
theorem bias_absent_target_differs_counterexample :
    storeGet? [] ("/1/15" ++ "/0/3/58/0") = Option.none ∧
    targetTemperature [] "/1/15" ≠ targetTemperatureNoBias [] "/1/15" := by
  constructor
  · rfl
  · intro hEq
    have h1 : targetTemperatureNoBias [] "/1/15" = Option.none := rfl
    have h2 : (targetTemperature [] "/1/15").isSome = true := rfl
    rw [hEq, h1] at h2
    simp at h2

/-- C4, amended: when the bias register is absent the biased and
unbiased `current_temperature` always agree, and the two
`target_temperature` readings agree whenever the setpoint register is
present (the counterexample shows they differ when it is absent, because
only the unbiased variant's lookup lacks a default). -/
theorem bias_absent_variants_agree (store : Store) (pfx : String)
    (hbias : storeGet? store (pfx ++ "/0/3/58/0") = Option.none) :
    currentTemperature store pfx = currentTemperatureNoBias store pfx ∧
    ∀ s : String, storeGet? store (pfx ++ "/0/1/1/0") = some s →
      targetTemperature store pfx = targetTemperatureNoBias store pfx := by
  have hb : storeGetD store (pfx ++ "/0/3/58/0") "0" = "0" := by
    simp [storeGetD, hbias]
  constructor
  · unfold currentTemperature currentTemperatureNoBias
    simp only [hb, pyFloat_zero, sub_zero]
  · intro s hs
    have ht : storeGetD store (pfx ++ "/0/1/1/0") "0" = s := by
      simp [storeGetD, hs]
    unfold targetTemperature targetTemperatureNoBias
    rw [targetBody_of_present store pfx s hs]
    simp only [ht, hb, pyFloat_zero, sub_zero]

/-- C4, witness: a store holding only temperature `"21.5"` and setpoint
`"22.0"` (no bias register): both variant pairs agree. -/
theorem bias_absent_variants_agree_witness :
    currentTemperature [("/1/15/0/0/1/0", "21.5"), ("/1/15/0/1/1/0", "22.0")]
        "/1/15" =
      currentTemperatureNoBias
        [("/1/15/0/0/1/0", "21.5"), ("/1/15/0/1/1/0", "22.0")] "/1/15" ∧
    targetTemperature [("/1/15/0/0/1/0", "21.5"), ("/1/15/0/1/1/0", "22.0")]
        "/1/15" =
      targetTemperatureNoBias
        [("/1/15/0/0/1/0", "21.5"), ("/1/15/0/1/1/0", "22.0")] "/1/15" :=
  ⟨(bias_absent_variants_agree
      [("/1/15/0/0/1/0", "21.5"), ("/1/15/0/1/1/0", "22.0")] "/1/15" rfl).1,
   (bias_absent_variants_agree
      [("/1/15/0/0/1/0", "21.5"), ("/1/15/0/1/1/0", "22.0")] "/1/15" rfl).2
      "22.0" rfl⟩

/-- C5: for every prefix and stringified temperature,
`async_set_temperature` issues exactly the write of the value to the
setpoint register, then the unconditional write of `"400"` to the
override-remaining-minutes register, then a refresh — in both entity
classes, whose bodies are identical. -/
theorem set_temperature_effect_order (pfx vstr : String) :
    asyncSetTemperature pfx vstr =
      [Effect.write (pfx ++ "/0/3/4/0") vstr,
       Effect.write (pfx ++ "/0/2/10/0") "400",
       Effect.refresh] ∧
    asyncSetTemperatureNoBias pfx vstr =
      [Effect.write (pfx ++ "/0/3/4/0") vstr,
       Effect.write (pfx ++ "/0/2/10/0") "400",
       Effect.refresh] :=
  ⟨rfl, rfl⟩

/-- C6: for every label outside the fixed 8-label set,
`async_set_preset_mode` raises `ValueError` from `list.index` before any
effect: no register write and no refresh are issued. -/
theorem set_preset_invalid_label_no_effects (store : Store)
    (pfx label : String) (h : label ∉ presetModes) :
    asyncSetPresetMode store pfx label = ([], some PyError.valueError) := by
  unfold asyncSetPresetMode
  rw [listIndex_not_mem presetModes label h]

/-- C6, witness: `set_preset("9")` on the empty store fails with
`ValueError` and issues nothing. -/
theorem set_preset_invalid_label_no_effects_witness :
    asyncSetPresetMode [] "/1/15" "9" = ([], some PyError.valueError) :=
  set_preset_invalid_label_no_effects [] "/1/15" "9" (by decide)

/-- C7: the reported hvac action is `OFF` exactly when the raw mode
register parses to `0` (a missing register defaults to the int `0` and
also reads `OFF`); in every other case — any other integer, or a
malformed register whose `None` compares unequal to `0` — it is
`HEATING`. -/
theorem hvac_action_off_iff_mode_zero (store : Store) (pfx : String) :
    (hvacAction store pfx = HVACAction.off ↔
      rawPresetMode store pfx = some 0) ∧
    (hvacAction store pfx = HVACAction.off ∨
      hvacAction store pfx = HVACAction.heating) := by
  by_cases h : rawPresetMode store pfx = some 0
  · simp [hvacAction, h]
  · simp [hvacAction, h]

/-- C7, witness: on the empty store the mode register defaults to `0`
and the action is `OFF`. -/
theorem hvac_action_off_iff_mode_zero_witness :
    hvacAction [] "/1/15" = HVACAction.off :=
  (hvac_action_off_iff_mode_zero [] "/1/15").1.mpr rfl

/-- C8, counterexample: on a store missing the setpoint register the
unbiased `target_temperature` does **not** let a type error out — the
`TypeError` from `float(None)` is caught by the surrounding
`except (ValueError, TypeError)` and the reading is the graceful absent
value; and the unbiased `current_temperature`, which passes default
`"0"`, yields a present reading (`0.0`) on a missing register, not an
absent one. -/
theorem missing_setpoint_is_caught_counterexample :
    targetTemperatureNoBias [] "/1/15" = Option.none ∧
    (currentTemperatureNoBias [] "/1/15").isSome = true := by
  constructor
  · rfl
  · rfl

/-- C8, amended: in the unbiased variant a missing setpoint register
makes the `target_temperature` body raise `TypeError` (`float(None)`),
which the property's handler catches, yielding the absent value `None`;
`current_temperature`, whose lookup passes the default `"0"`, instead
yields `0.0` on a missing register.  The two lookups do follow distinct
policies, but both are graceful: no type error escapes. -/
theorem missing_setpoint_caught_to_absent (store : Store) (pfx : String)
    (h1 : storeGet? store (pfx ++ "/0/1/1/0") = Option.none)
    (h2 : storeGet? store (pfx ++ "/0/0/1/0") = Option.none) :
    targetTemperatureNoBiasBody store pfx = Except.error PyError.typeError ∧
    targetTemperatureNoBias store pfx = Option.none ∧
    currentTemperatureNoBias store pfx = some 0 := by
  have hbody : targetTemperatureNoBiasBody store pfx =
      Except.error PyError.typeError := by
    unfold targetTemperatureNoBiasBody
    rw [h1]
    rfl
  refine ⟨hbody, ?_, ?_⟩
  · unfold targetTemperatureNoBias
    rw [hbody]
  · have hc : storeGetD store (pfx ++ "/0/0/1/0") "0" = "0" := by
      simp [storeGetD, h2]
    unfold currentTemperatureNoBias
    rw [hc, pyFloat_zero]

/-- C8, witness: the amended theorem on the empty store. -/
theorem missing_setpoint_caught_to_absent_witness :
    targetTemperatureNoBiasBody [] "/1/15" = Except.error PyError.typeError ∧
    targetTemperatureNoBias [] "/1/15" = Option.none ∧
    currentTemperatureNoBias [] "/1/15" = some 0 :=
  missing_setpoint_caught_to_absent [] "/1/15" rfl rfl

/-- C9: `async_set_hvac_mode` has an empty body in both entity classes:
for every requested mode it succeeds, raises nothing, and issues no
register write and no refresh. -/
theorem set_hvac_mode_is_noop (hvacMode : String) :
    asyncSetHvacMode hvacMode = ([], Option.none) ∧
    asyncSetHvacModeNoBias hvacMode = ([], Option.none) :=
  ⟨rfl, rfl⟩

/-- C10: `set_current_temp_compensation` — a write of the stringified
compensation to the bias register followed by a refresh — is a command
of the biased class only; the without-bias class defines no such
method, so the two classes' command surfaces differ beyond the
temperature arithmetic. -/
theorem compensation_command_only_on_biased :
    biasedCommands.setCurrentTempCompensation? =
      some setCurrentTempCompensation ∧
    noBiasCommands.setCurrentTempCompensation? = Option.none ∧
    ∀ pfx vstr : String,
      setCurrentTempCompensation pfx vstr =
        [Effect.write (pfx ++ "/0/3/58/0") vstr, Effect.refresh] :=
  ⟨rfl, rfl, fun _ _ => rfl⟩

end Windhager
